import Mathlib

/-!
Verification of `src/backend/trace_processor.py` (`InMemoryTraceProcessor`),
the in-memory trace store and SSE broadcast hub of the TailorBlend backend.

Shallow embedding conventions:
- Python `dict`s keyed by strings become association lists `List (String × α)`
  with first-occurrence lookup (`alookup`), in-place replace-or-append update
  (`aset`, matching `d[k] = v`), and key deletion (`aerase`, matching `del d[k]`
  and the membership-guarded deletions in the source).
- `datetime.utcnow()` is an external input: every event-handling operation takes
  the current time `now : Nat` (milliseconds) as a parameter.  The source stores
  ISO strings and parses them back to compute `duration_ms`; we keep the numeric
  timestamps directly, so `duration_ms` is the difference of the two instants,
  exactly what the source computes.  (The source's truthiness guard
  `if trace_data["started_at"] and trace_data["ended_at"]` is always true at
  that point: `started_at` is a nonempty ISO string and `ended_at` was just
  assigned one.)
- `span.export()` returns `None` or a dict holding a `span_data` dict; we model
  it as `Option SpanExport` where `none` covers both `None` and a falsy (empty)
  export dict — both take the `if not span_export` early return, and an empty
  dict has no `"type"`/`"name"` keys anyway.  Payload field values are modelled
  as strings (only their presence and the `"type"`/`"name"` values matter).
- `asyncio.Queue` objects and event loops are opaque handles: a subscription
  entry `(queue, loop)` becomes a pair of numeric ids `(Nat × Nat)`; Python's
  `q is not queue` identity test becomes inequality of queue ids.  Actual
  asynchronous delivery into the queues (`_broadcast_trace_update`, which only
  schedules best-effort, droppable enqueues onto foreign event loops) has no
  effect on any of the five dictionaries of the class and is not modelled.
- Methods that return `None` in Python are embedded returning the new state;
  `on_trace_end`, whose (absent) return value is the subject of one spec claim,
  returns `TPState × Option TraceRec` where the second component is the Python
  return value: `none` from the bare `return` guard and `none` from falling off
  the end of the method.
-/

/-- First-occurrence lookup in an association list (Python `d.get(k)` / `d[k]`). -/
def alookup {α : Type} : List (String × α) → String → Option α
  | [], _ => none
  | (k', v) :: t, k => if k' = k then some v else alookup t k

/-- Replace the binding of `k` in place, or append it (Python `d[k] = v`). -/
def aset {α : Type} : List (String × α) → String → α → List (String × α)
  | [], k, v => [(k, v)]
  | (k', v') :: t, k, v => if k' = k then (k, v) :: t else (k', v') :: aset t k v

/-- Remove every binding of `k` (Python `del d[k]`, tolerating absence). -/
def aerase {α : Type} : List (String × α) → String → List (String × α)
  | [], _ => []
  | (k', v') :: t, k => if k' = k then aerase t k else (k', v') :: aerase t k

/-- The `span_data` dict inside a span's `export()` payload, as a string-valued
field map.  `_get_span_type`, `_get_span_name` and `_extract_span_data` read
only string fields from it. -/
structure SpanExport where
  span_data : List (String × String)
deriving DecidableEq

/-- A span record as built by `on_span_start`/`on_span_end`: the dict literal of
`trace_processor.py` lines 107-117.  Field names match the dict keys. -/
structure SpanRec where
  span_id : String
  trace_id : String
  parent_id : Option String
  type : String
  name : String
  started_at : Nat
  ended_at : Option Nat
  duration_ms : Option Int
  data : List (String × Option String)
deriving DecidableEq, Inhabited

/-- A trace record as built by `on_trace_start`/`on_trace_end`: the dict literal
of `trace_processor.py` lines 62-70.  Field names match the dict keys. -/
structure TraceRec where
  trace_id : String
  name : String
  started_at : Nat
  ended_at : Option Nat
  duration_ms : Option Int
  spans : List SpanRec
  metadata : List (String × String)
deriving DecidableEq, Inhabited

/-- The five dictionaries of `InMemoryTraceProcessor.__init__`:
`_traces`, `_active_traces`, `_active_spans`, `_broadcast_queues`
(entries are `(queue id, event-loop id)` pairs), `_trace_sessions`. -/
structure TPState where
  traces : List (String × List TraceRec)
  active_traces : List (String × TraceRec)
  active_spans : List (String × SpanRec)
  broadcast_queues : List (String × List (Nat × Nat))
  trace_sessions : List (String × String)
deriving DecidableEq

/-- Fresh processor state: all five dicts empty. -/
def initState : TPState :=
  { traces := [], active_traces := [], active_spans := [],
    broadcast_queues := [], trace_sessions := [] }

/-- `self._max_traces_per_session = 10` (line 52). -/
def max_traces_per_session : Nat := 10

/-- `set_session_id` (lines 54-57): `self._trace_sessions[trace_id] = session_id`. -/
def set_session_id (st : TPState) (trace_id session_id : String) : TPState :=
  { st with trace_sessions := aset st.trace_sessions trace_id session_id }

/-- `on_trace_start` (lines 59-71).  `trace.name or "Unknown Workflow"` and
`trace.metadata or {}` are modelled with `Option.getD` (a Python `None`, and
for the name also the empty string, falls back to the default). -/
def on_trace_start (st : TPState) (now : Nat) (trace_id : String)
    (nm : Option String) (metadata : Option (List (String × String))) : TPState :=
  let trace_data : TraceRec :=
    { trace_id := trace_id
      name := nm.getD "Unknown Workflow"
      started_at := now
      ended_at := none
      duration_ms := none
      spans := []
      metadata := metadata.getD [] }
  { st with active_traces := aset st.active_traces trace_id trace_data }

/-- Finalization performed by `on_trace_end` lines 80-86: set `ended_at`,
compute `duration_ms` from the stored start and end instants. -/
def finalize (td : TraceRec) (now : Nat) : TraceRec :=
  { td with ended_at := some now,
            duration_ms := some ((now : Int) - (td.started_at : Int)) }

/-- Session resolution of `on_trace_end` line 89:
`self._trace_sessions.get(trace.trace_id, "unknown")`. -/
def sessionOf (st : TPState) (trace_id : String) : String :=
  (alookup st.trace_sessions trace_id).getD "unknown"

/-- Circular-buffer push of `on_trace_end` lines 92-94: append, then
`pop(0)` once if the length exceeds `_max_traces_per_session`. -/
def pushCap (buf : List TraceRec) (r : TraceRec) : List TraceRec :=
  let b := buf ++ [r]
  if b.length > max_traces_per_session then b.drop 1 else b

/-- `on_trace_end` (lines 73-102).  The second component of the result is the
Python return value of the method: the guard's bare `return` yields `None`, and
the method body also ends without a `return` statement, so the method returns
`None` on every path (its `TracingProcessor` signature is `-> None`); the
finalized record is handed to `_broadcast_trace_update`, not to the caller.
Broadcast delivery touches no field of the state (see module docstring). -/
def on_trace_end (st : TPState) (now : Nat) (trace_id : String) :
    TPState × Option TraceRec :=
  match alookup st.active_traces trace_id with
  | none => (st, none)
  | some td =>
    let record := finalize td now
    let session_id := sessionOf st trace_id
    let buf := pushCap ((alookup st.traces session_id).getD []) record
    ({ st with
        traces := aset st.traces session_id buf,
        active_traces := aerase st.active_traces trace_id,
        trace_sessions := aerase st.trace_sessions trace_id }, none)

/-- `_get_span_type` (lines 145-152): `span_data.get("type", "unknown")` —
the payload's `type` value verbatim, defaulting to `"unknown"` only when the
export or the field is absent. -/
def get_span_type (exp : Option SpanExport) : String :=
  match exp with
  | none => "unknown"
  | some ex => (alookup ex.span_data "type").getD "unknown"

/-- `_get_span_name` (lines 154-161): `span_data.get("name", "Unknown Operation")`. -/
def get_span_name (exp : Option SpanExport) : String :=
  match exp with
  | none => "Unknown Operation"
  | some ex => (alookup ex.span_data "name").getD "Unknown Operation"

/-- `_extract_span_data` (lines 163-197): a `type` entry plus the type-specific
fields for the three recognized kinds; any other type yields just `type`. -/
def extract_span_data (exp : Option SpanExport) : List (String × Option String) :=
  match exp with
  | none => []
  | some ex =>
    let sd := ex.span_data
    let t := (alookup sd "type").getD "unknown"
    let result := [("type", some t)]
    if t = "generation" then
      result ++ [("model", alookup sd "model"), ("input", alookup sd "input"),
                 ("output", alookup sd "output"), ("usage", alookup sd "usage")]
    else if t = "function" then
      result ++ [("name", alookup sd "name"), ("input", alookup sd "input"),
                 ("output", alookup sd "output"), ("mcp_data", alookup sd "mcp_data")]
    else if t = "agent" then
      result ++ [("name", alookup sd "name"), ("handoffs", alookup sd "handoffs"),
                 ("tools", alookup sd "tools"), ("output_type", alookup sd "output_type")]
    else result

/-- `on_span_start` (lines 104-118).  `getattr(span, "parent_id", None)` and the
span's `export()` payload arrive as parameters. -/
def on_span_start (st : TPState) (now : Nat) (span_id trace_id : String)
    (parent_id : Option String) (exp : Option SpanExport) : TPState :=
  let span_data : SpanRec :=
    { span_id := span_id
      trace_id := trace_id
      parent_id := parent_id
      type := get_span_type exp
      name := get_span_name exp
      started_at := now
      ended_at := none
      duration_ms := none
      data := [] }
  { st with active_spans := aset st.active_spans span_id span_data }

/-- `on_span_end` (lines 120-143): early `return` when the span is not
in-flight; otherwise finalize it, append it to its parent trace's `spans` when
the trace is in-flight (line 139's `span.trace_id` equals the `trace_id` the
span record stored at start — same span object), and in every reached path
delete the span from `_active_spans`. -/
def on_span_end (st : TPState) (now : Nat) (span_id : String)
    (exp : Option SpanExport) : TPState :=
  match alookup st.active_spans span_id with
  | none => st
  | some sd =>
    let sd := { sd with
                  ended_at := some now,
                  duration_ms := some ((now : Int) - (sd.started_at : Int)),
                  data := extract_span_data exp }
    let st :=
      match alookup st.active_traces sd.trace_id with
      | some td =>
        let td' := { td with spans := td.spans ++ [sd] }
        { st with active_traces := aset st.active_traces sd.trace_id td' }
      | none => st
    { st with active_spans := aerase st.active_spans span_id }

/-- `get_traces` (lines 231-234): `list(self._traces.get(session_id, []))`.
In this value-semantics model the list copy is the identity; the reference
structure of the shallow copy is studied separately in `RefModel` below. -/
def get_traces (st : TPState) (session_id : String) : List TraceRec :=
  (alookup st.traces session_id).getD []

/-- `clear_session` (lines 236-240): delete the session's buffer if present. -/
def clear_session (st : TPState) (session_id : String) : TPState :=
  { st with traces := aerase st.traces session_id }

/-- `subscribe_to_traces` (lines 242-255): append a fresh `(queue, loop)` pair
under the session (via `defaultdict`); the queue/loop handles are the `q`/`l`
parameters, and the queue is also the Python return value. -/
def subscribe_to_traces (st : TPState) (session_id : String) (q l : Nat) : TPState :=
  let lst := (alookup st.broadcast_queues session_id).getD [] ++ [(q, l)]
  { st with broadcast_queues := aset st.broadcast_queues session_id lst }

/-- `unsubscribe_from_traces` (lines 257-267): when the session key is present,
rebuild its list keeping the entries whose queue `is not` the given one. -/
def unsubscribe_from_traces (st : TPState) (session_id : String) (q : Nat) : TPState :=
  match alookup st.broadcast_queues session_id with
  | none => st
  | some lst =>
    let kept := lst.filter (fun e => e.1 ≠ q)
    { st with broadcast_queues := aset st.broadcast_queues session_id kept }

/-- `shutdown` (lines 269-276): clear all five dicts. -/
def shutdown (st : TPState) : TPState :=
  let _ := st
  initState

/-- One externally-triggered call into the processor.  Each event carries the
external inputs of the corresponding method (current time, ids, payloads). -/
inductive Ev where
  | setSession (trace_id session_id : String)
  | traceStart (now : Nat) (trace_id : String) (nm : Option String)
      (metadata : Option (List (String × String)))
  | traceEnd (now : Nat) (trace_id : String)
  | spanStart (now : Nat) (span_id trace_id : String) (parent_id : Option String)
      (exp : Option SpanExport)
  | spanEnd (now : Nat) (span_id : String) (exp : Option SpanExport)
  | clearSession (session_id : String)
  | subscribe (session_id : String) (q l : Nat)
  | unsubscribe (session_id : String) (q : Nat)
  | shutdownEv
deriving DecidableEq

/-- Dispatch one event to the corresponding method.  All methods run under
`self._lock`, so an execution of the processor is a sequence of these atomic
steps in some global order. -/
def step (st : TPState) : Ev → TPState
  | .setSession tid sid => set_session_id st tid sid
  | .traceStart now tid nm md => on_trace_start st now tid nm md
  | .traceEnd now tid => (on_trace_end st now tid).1
  | .spanStart now sid tid pid exp => on_span_start st now sid tid pid exp
  | .spanEnd now sid exp => on_span_end st now sid exp
  | .clearSession sid => clear_session st sid
  | .subscribe sid q l => subscribe_to_traces st sid q l
  | .unsubscribe sid q => unsubscribe_from_traces st sid q
  | .shutdownEv => shutdown st

/-- Run a sequence of events from a given state. -/
def runFrom (st : TPState) : List Ev → TPState
  | [] => st
  | e :: t => runFrom (step st e) t

example : get_traces (runFrom initState
    [Ev.traceStart 0 "t1" (some "wf") none, Ev.setSession "t1" "s1",
     Ev.traceEnd 7 "t1"]) "s1"
    = [{ trace_id := "t1", name := "wf", started_at := 0, ended_at := some 7,
         duration_ms := some 7, spans := [], metadata := [] }] := by decide

/-! ### Association-list lemmas -/

@[simp] theorem alookup_nil {α : Type} (k : String) :
    alookup ([] : List (String × α)) k = none := rfl

@[simp] theorem alookup_cons {α : Type} (k' : String) (v : α) (t : List (String × α))
    (k : String) :
    alookup ((k', v) :: t) k = if k' = k then some v else alookup t k := rfl

@[simp] theorem alookup_aset_self {α : Type} (m : List (String × α)) (k : String) (v : α) :
    alookup (aset m k v) k = some v := by
  induction m with
  | nil => simp [aset]
  | cons hd t ih =>
    obtain ⟨k', v'⟩ := hd
    by_cases h : k' = k <;> simp [aset, h, ih]

theorem alookup_aset_ne {α : Type} (m : List (String × α)) (k k' : String) (v : α)
    (h : k ≠ k') :
    alookup (aset m k v) k' = alookup m k' := by
  induction m with
  | nil => simp [aset, h]
  | cons hd t ih =>
    obtain ⟨k₀, v₀⟩ := hd
    by_cases h₀ : k₀ = k
    · simp [aset, h₀, h]
    · simp only [aset, if_neg h₀, alookup_cons, ih]

@[simp] theorem alookup_aerase_self {α : Type} (m : List (String × α)) (k : String) :
    alookup (aerase m k) k = none := by
  induction m with
  | nil => simp [aerase]
  | cons hd t ih =>
    obtain ⟨k₀, v₀⟩ := hd
    by_cases h₀ : k₀ = k <;> simp [aerase, h₀, ih]

theorem alookup_aerase_ne {α : Type} (m : List (String × α)) (k k' : String)
    (h : k ≠ k') :
    alookup (aerase m k) k' = alookup m k' := by
  induction m with
  | nil => simp [aerase]
  | cons hd t ih =>
    obtain ⟨k₀, v₀⟩ := hd
    by_cases h₀ : k₀ = k
    · subst h₀
      simp [aerase, h, ih]
    · simp only [aerase, if_neg h₀, alookup_cons, ih]

theorem aset_aset_self {α : Type} (m : List (String × α)) (k : String) (v w : α) :
    aset (aset m k v) k w = aset m k w := by
  induction m with
  | nil => simp [aset]
  | cons hd t ih =>
    obtain ⟨k₀, v₀⟩ := hd
    by_cases h₀ : k₀ = k <;> simp [aset, h₀, ih]

/-! ### Circular-buffer lemmas -/

/-- The last `n` elements of a list. -/
def takeLast {α : Type} (n : Nat) (l : List α) : List α :=
  l.drop (l.length - n)

theorem takeLast_of_le {α : Type} {n : Nat} {l : List α} (h : l.length ≤ n) :
    takeLast n l = l := by
  unfold takeLast
  have : l.length - n = 0 := by omega
  simp [this]

theorem length_takeLast {α : Type} (n : Nat) (l : List α) :
    (takeLast n l).length = min n l.length := by
  unfold takeLast
  simp [List.length_drop]
  omega

theorem length_pushCap {buf : List TraceRec} {r : TraceRec}
    (h : buf.length ≤ max_traces_per_session) :
    (pushCap buf r).length ≤ max_traces_per_session := by
  unfold max_traces_per_session at h ⊢
  unfold pushCap max_traces_per_session
  dsimp only
  split <;> rename_i hcond
  · simp only [List.length_drop, List.length_append, List.length_singleton] at *
    omega
  · simp only [List.length_append, List.length_singleton] at hcond ⊢
    omega

/-- Pushing onto a buffer that is the last-10 window of a history `c` yields the
last-10 window of the extended history `c ++ [r]`. -/
theorem pushCap_takeLast {buf c : List TraceRec} {r : TraceRec}
    (h : buf = takeLast max_traces_per_session c) :
    pushCap buf r = takeLast max_traces_per_session (c ++ [r]) := by
  subst h
  unfold pushCap takeLast max_traces_per_session
  dsimp only
  split <;> rename_i hcond <;>
    simp only [List.length_append, List.length_drop, List.length_singleton] at hcond
  · -- overflow branch: the history already had at least 10 records
    have hc : 10 ≤ c.length := by omega
    simp only [List.length_append, List.length_singleton]
    rw [List.drop_append_of_le_length (by simp [List.length_drop]; omega),
        List.drop_append_of_le_length (by omega),
        List.drop_drop]
    have harg : c.length - 10 + 1 = c.length + 1 - 10 := by omega
    rw [harg]
  · -- no-overflow branch: the history had fewer than 10 records
    have hc : c.length < 10 := by omega
    have h0 : c.length - 10 = 0 := by omega
    have h1 : c.length + 1 - 10 = 0 := by omega
    rw [h0, List.drop_zero]
    simp only [List.length_append, List.length_singleton, h1, List.drop_zero]

/-! ### What each event does to a session buffer -/

theorem on_span_end_traces (st : TPState) (now : Nat) (sid : String)
    (exp : Option SpanExport) :
    (on_span_end st now sid exp).traces = st.traces := by
  unfold on_span_end
  split
  · rfl
  · dsimp only
    split <;> rfl

theorem unsubscribe_traces (st : TPState) (sid : String) (q : Nat) :
    (unsubscribe_from_traces st sid q).traces = st.traces := by
  unfold unsubscribe_from_traces
  split <;> rfl

theorem get_traces_clear_ne (st : TPState) (sid s : String) (h : sid ≠ s) :
    get_traces (clear_session st sid) s = get_traces st s := by
  simp [get_traces, clear_session, alookup_aerase_ne _ _ _ h]

/-- Effect of `on_trace_end` on a session buffer: nothing when the trace is not
in-flight; a capped push of the finalized record onto the owning session's
buffer, other sessions untouched. -/
theorem on_trace_end_get_traces (st : TPState) (now : Nat) (tid s : String) :
    get_traces (on_trace_end st now tid).1 s =
      (match alookup st.active_traces tid with
       | none => get_traces st s
       | some td =>
         if sessionOf st tid = s then pushCap (get_traces st s) (finalize td now)
         else get_traces st s) := by
  unfold on_trace_end
  cases hA : alookup st.active_traces tid with
  | none => rfl
  | some td =>
    dsimp only
    by_cases hs : sessionOf st tid = s
    · subst hs
      simp [get_traces, alookup_aset_self]
    · rw [if_neg hs]
      simp [get_traces, alookup_aset_ne _ _ _ _ hs]

/-- The completion history of session `s` along a script: the finalized records
that `on_trace_end` appends to `s`'s buffer, in completion order (oldest
first), with the state threaded through the events. -/
def completionsFrom (st : TPState) (s : String) : List Ev → List TraceRec
  | [] => []
  | e :: t =>
    let rest := completionsFrom (step st e) s t
    match e with
    | .traceEnd now tid =>
      match alookup st.active_traces tid with
      | some td => if sessionOf st tid = s then finalize td now :: rest else rest
      | none => rest
    | _ => rest

/-- Main buffer invariant: along any script free of `clear_session(s)` and
`shutdown`, session `s`'s buffer is exactly the last-10 window of its
completion history. -/
theorem runFrom_buffer (evs : List Ev) (st : TPState) (s : String)
    (c : List TraceRec)
    (hno : ∀ e ∈ evs, e ≠ Ev.clearSession s ∧ e ≠ Ev.shutdownEv)
    (hb : get_traces st s = takeLast max_traces_per_session c) :
    get_traces (runFrom st evs) s
      = takeLast max_traces_per_session (c ++ completionsFrom st s evs) := by
  induction evs generalizing st c with
  | nil =>
    simpa [runFrom, completionsFrom] using hb
  | cons e t ih =>
    have hne := hno e (List.mem_cons_self e t)
    have hnt : ∀ e' ∈ t, e' ≠ Ev.clearSession s ∧ e' ≠ Ev.shutdownEv :=
      fun e' he' => hno e' (List.mem_cons_of_mem e he')
    show get_traces (runFrom (step st e) t) s = _
    cases e with
    | traceEnd now tid =>
      have hchar := on_trace_end_get_traces st now tid s
      cases hA : alookup st.active_traces tid with
      | none =>
        simp only [hA] at hchar
        have hstep : get_traces (step st (Ev.traceEnd now tid)) s
            = takeLast max_traces_per_session c := by
          simpa [step, hchar] using hb
        simpa [completionsFrom, hA] using ih (step st (Ev.traceEnd now tid)) c hnt hstep
      | some td =>
        simp only [hA] at hchar
        by_cases hs : sessionOf st tid = s
        · rw [if_pos hs] at hchar
          have hstep : get_traces (step st (Ev.traceEnd now tid)) s
              = takeLast max_traces_per_session (c ++ [finalize td now]) := by
            show get_traces (on_trace_end st now tid).1 s = _
            rw [hchar, hb]
            exact pushCap_takeLast rfl
          have := ih (step st (Ev.traceEnd now tid)) (c ++ [finalize td now]) hnt hstep
          simpa [completionsFrom, hA, hs, List.append_assoc] using this
        · rw [if_neg hs] at hchar
          have hstep : get_traces (step st (Ev.traceEnd now tid)) s
              = takeLast max_traces_per_session c := by
            simpa [step, hchar] using hb
          simpa [completionsFrom, hA, hs] using
            ih (step st (Ev.traceEnd now tid)) c hnt hstep
    | setSession tid sid =>
      simpa [completionsFrom] using ih (step st (Ev.setSession tid sid)) c hnt hb
    | traceStart now tid nm md =>
      simpa [completionsFrom] using ih (step st (Ev.traceStart now tid nm md)) c hnt hb
    | spanStart now sid tid pid exp =>
      simpa [completionsFrom] using
        ih (step st (Ev.spanStart now sid tid pid exp)) c hnt hb
    | spanEnd now sid exp =>
      have hstep : get_traces (step st (Ev.spanEnd now sid exp)) s
          = takeLast max_traces_per_session c := by
        rw [← hb]
        show get_traces (on_span_end st now sid exp) s = get_traces st s
        simp [get_traces, on_span_end_traces]
      simpa [completionsFrom] using ih (step st (Ev.spanEnd now sid exp)) c hnt hstep
    | clearSession sid =>
      have hsid : sid ≠ s := by
        intro hEq
        exact hne.1 (by rw [hEq])
      have hstep : get_traces (step st (Ev.clearSession sid)) s
          = takeLast max_traces_per_session c := by
        rw [← hb]
        exact get_traces_clear_ne st sid s hsid
      simpa [completionsFrom] using ih (step st (Ev.clearSession sid)) c hnt hstep
    | subscribe sid q l =>
      simpa [completionsFrom] using ih (step st (Ev.subscribe sid q l)) c hnt hb
    | unsubscribe sid q =>
      have hstep : get_traces (step st (Ev.unsubscribe sid q)) s
          = takeLast max_traces_per_session c := by
        rw [← hb]
        show get_traces (unsubscribe_from_traces st sid q) s = get_traces st s
        simp [get_traces, unsubscribe_traces]
      simpa [completionsFrom] using ih (step st (Ev.unsubscribe sid q)) c hnt hstep
    | shutdownEv => exact absurd rfl hne.2

/-! ### Claim C1: circular-buffer capacity -/

/-- C1: for every session, along any script of processor calls that never
clears that session (and never shuts the processor down), once more than 10
traces have been completed for the session, `get_traces` returns exactly the
10 most recently completed records, in completion order, oldest first; and
after every prefix of the script the session's buffer holds at most 10
records. -/
theorem C1_circular_buffer_capacity (evs : List Ev) (s : String)
    (hno : ∀ e ∈ evs, e ≠ Ev.clearSession s ∧ e ≠ Ev.shutdownEv)
    (hN : max_traces_per_session < (completionsFrom initState s evs).length) :
    get_traces (runFrom initState evs) s
        = takeLast max_traces_per_session (completionsFrom initState s evs)
    ∧ (get_traces (runFrom initState evs) s).length = max_traces_per_session
    ∧ ∀ l₁ l₂, evs = l₁ ++ l₂ →
        (get_traces (runFrom initState l₁) s).length ≤ max_traces_per_session := by
  have hinit : get_traces initState s = takeLast max_traces_per_session [] := rfl
  have hmain := runFrom_buffer evs initState s [] hno hinit
  rw [List.nil_append] at hmain
  refine ⟨hmain, ?_, ?_⟩
  · rw [hmain, length_takeLast]
    omega
  · intro l₁ l₂ hsplit
    have hno₁ : ∀ e ∈ l₁, e ≠ Ev.clearSession s ∧ e ≠ Ev.shutdownEv := by
      intro e he
      exact hno e (by rw [hsplit]; exact List.mem_append_left l₂ he)
    have h₁ := runFrom_buffer l₁ initState s [] hno₁ hinit
    rw [List.nil_append] at h₁
    rw [h₁, length_takeLast]
    omega

/-- Concrete script for the C1 witness: eleven traces started and ended, none
ever associated with a session, so all eleven complete into `"unknown"`. -/
def c1Script : List Ev :=
  (List.range 11).flatMap (fun i =>
    [Ev.traceStart i (String.append "t" (Nat.repr i)) none none,
     Ev.traceEnd (i + 100) (String.append "t" (Nat.repr i))])

theorem C1_circular_buffer_capacity_witness :
    get_traces (runFrom initState c1Script) "unknown"
        = takeLast max_traces_per_session
            (completionsFrom initState "unknown" c1Script)
    ∧ (get_traces (runFrom initState c1Script) "unknown").length
        = max_traces_per_session
    ∧ (get_traces (runFrom initState (c1Script.take 12)) "unknown").length
        ≤ max_traces_per_session := by
  have h := C1_circular_buffer_capacity c1Script "unknown" (by decide) (by decide)
  exact ⟨h.1, h.2.1,
    h.2.2 (c1Script.take 12) (c1Script.drop 12)
      (List.take_append_drop 12 c1Script).symm⟩

/-! ### Claim C5: span attachment order is completion order -/

/-- C5: for a trace with three spans started in order S1, S2, S3 but ended in
order S2, S1, S3, the finalized trace's `spans` sequence lists them in
completion order `[S2, S1, S3]` — `on_span_end` appends each finalized span to
the in-flight parent's `spans`, so insertion order is span-completion order. -/
theorem C5_span_completion_order
    (t s1 s2 s3 : String) (h12 : s1 ≠ s2) (h13 : s1 ≠ s3) (h23 : s2 ≠ s3)
    (n0 n1 n2 n3 m1 m2 m3 n9 : Nat) (nm : Option String)
    (md : Option (List (String × String)))
    (p1 p2 p3 : Option String) (e1 e2 e3 f1 f2 f3 : Option SpanExport) :
    ((get_traces (runFrom initState
        [Ev.traceStart n0 t nm md,
         Ev.spanStart n1 s1 t p1 e1,
         Ev.spanStart n2 s2 t p2 e2,
         Ev.spanStart n3 s3 t p3 e3,
         Ev.spanEnd m2 s2 f2,
         Ev.spanEnd m1 s1 f1,
         Ev.spanEnd m3 s3 f3,
         Ev.traceEnd n9 t]) "unknown").head?).map
      (fun r => r.spans.map (fun sp => sp.span_id)) = some [s2, s1, s3] := by
  simp [runFrom, step, on_trace_start, on_span_start, on_span_end, on_trace_end,
        get_traces, sessionOf, finalize, pushCap, aset, aerase, alookup,
        max_traces_per_session, h12, h13, h23, Ne.symm h12, Ne.symm h13,
        Ne.symm h23]

theorem C5_span_completion_order_witness :
    ((get_traces (runFrom initState
        [Ev.traceStart 0 "t" none none,
         Ev.spanStart 1 "S1" "t" none none,
         Ev.spanStart 2 "S2" "t" none none,
         Ev.spanStart 3 "S3" "t" none none,
         Ev.spanEnd 4 "S2" none,
         Ev.spanEnd 5 "S1" none,
         Ev.spanEnd 6 "S3" none,
         Ev.traceEnd 7 "t"]) "unknown").head?).map
      (fun r => r.spans.map (fun sp => sp.span_id)) = some ["S2", "S1", "S3"] :=
  C5_span_completion_order "t" "S1" "S2" "S3" (by decide) (by decide) (by decide)
    0 1 2 3 5 4 6 7 none none none none none none none none none none none

/-! ### Claim C7: unknown-session default -/

theorem self_mem_pushCap (b : List TraceRec) (r : TraceRec) : r ∈ pushCap b r := by
  unfold pushCap max_traces_per_session
  dsimp only
  split <;> rename_i h
  · have hb : 1 ≤ b.length := by
      simp only [List.length_append, List.length_singleton] at h
      omega
    rw [List.drop_append_of_le_length hb]
    simp
  · simp

/-- C7: ending an in-flight trace that has no session association appends its
finalized record to the `"unknown"` session's buffer (where it is retrievable
by `get_traces "unknown"`), and leaves every other session's buffer unchanged. -/
theorem C7_unknown_session_default (st : TPState) (now : Nat) (tid : String)
    (td : TraceRec)
    (hA : alookup st.active_traces tid = some td)
    (hS : alookup st.trace_sessions tid = none) :
    get_traces (on_trace_end st now tid).1 "unknown"
        = pushCap (get_traces st "unknown") (finalize td now)
    ∧ finalize td now ∈ get_traces (on_trace_end st now tid).1 "unknown"
    ∧ ∀ s, s ≠ "unknown" →
        get_traces (on_trace_end st now tid).1 s = get_traces st s := by
  have hsess : sessionOf st tid = "unknown" := by
    simp [sessionOf, hS]
  have hchar := fun s => on_trace_end_get_traces st now tid s
  have hmain : get_traces (on_trace_end st now tid).1 "unknown"
      = pushCap (get_traces st "unknown") (finalize td now) := by
    have h := hchar "unknown"
    simp only [hA, hsess, if_pos rfl] at h
    exact h
  refine ⟨hmain, ?_, ?_⟩
  · rw [hmain]
    exact self_mem_pushCap _ _
  · intro s hs
    have h := hchar s
    have hne : ¬sessionOf st tid = s := by
      rw [hsess]
      exact fun hEq => hs hEq.symm
    simp only [hA, if_neg hne] at h
    exact h

theorem C7_unknown_session_default_witness :
    get_traces (on_trace_end (on_trace_start initState 0 "t1" (some "wf") none)
        7 "t1").1 "unknown"
      = pushCap (get_traces (on_trace_start initState 0 "t1" (some "wf") none)
          "unknown")
          (finalize { trace_id := "t1", name := "wf", started_at := 0,
                      ended_at := none, duration_ms := none, spans := [],
                      metadata := [] } 7)
    ∧ finalize { trace_id := "t1", name := "wf", started_at := 0,
                 ended_at := none, duration_ms := none, spans := [],
                 metadata := [] } 7
        ∈ get_traces (on_trace_end (on_trace_start initState 0 "t1" (some "wf")
            none) 7 "t1").1 "unknown"
    ∧ get_traces (on_trace_end (on_trace_start initState 0 "t1" (some "wf")
          none) 7 "t1").1 "s9"
        = get_traces (on_trace_start initState 0 "t1" (some "wf") none) "s9" := by
  have h := C7_unknown_session_default
    (on_trace_start initState 0 "t1" (some "wf") none) 7 "t1"
    { trace_id := "t1", name := "wf", started_at := 0, ended_at := none,
      duration_ms := none, spans := [], metadata := [] }
    (by decide) (by decide)
  exact ⟨h.1, h.2.1, h.2.2 "s9" (by decide)⟩

/-! ### Claim C2: what end_trace returns, and what it changes -/

/-- C2 counterexample: even for a trace that IS in the in-flight index,
`on_trace_end` returns `None` (the finalized record is broadcast internally,
not returned to the caller), contradicting the claim that the caller receives
the finalized TraceRecord. -/
theorem C2_counterexample :
    (alookup (on_trace_start initState 0 "t1" (some "wf") none).active_traces
        "t1").isSome = true
    ∧ (on_trace_end (on_trace_start initState 0 "t1" (some "wf") none)
        5 "t1").2 = none := by decide

/-- C2 amended: `on_trace_end` returns `None` on every path.  When the trace is
not in the in-flight index it has no other effect at all; when it is, the
method removes the trace from the in-flight and session-association indices
and appends the finalized record to the owning session's buffer (broadcasting
it to subscribers itself rather than returning it). -/
theorem C2_end_trace_effects (st : TPState) (now : Nat) (tid : String) :
    (on_trace_end st now tid).2 = none
    ∧ (alookup st.active_traces tid = none → (on_trace_end st now tid).1 = st)
    ∧ ∀ td, alookup st.active_traces tid = some td →
        alookup (on_trace_end st now tid).1.active_traces tid = none
        ∧ alookup (on_trace_end st now tid).1.trace_sessions tid = none
        ∧ get_traces (on_trace_end st now tid).1 (sessionOf st tid)
            = pushCap (get_traces st (sessionOf st tid)) (finalize td now) := by
  refine ⟨?_, ?_, ?_⟩
  · unfold on_trace_end
    split <;> rfl
  · intro hA
    unfold on_trace_end
    rw [hA]
  · intro td hA
    have hchar := on_trace_end_get_traces st now tid (sessionOf st tid)
    simp only [hA, if_pos rfl] at hchar
    refine ⟨?_, ?_, hchar⟩
    · unfold on_trace_end
      rw [hA]
      exact alookup_aerase_self _ _
    · unfold on_trace_end
      rw [hA]
      exact alookup_aerase_self _ _

theorem C2_end_trace_effects_witness :
    ((on_trace_end initState 5 "t1").2 = none
      ∧ (on_trace_end initState 5 "t1").1 = initState)
    ∧ ((on_trace_end (on_trace_start initState 0 "t1" (some "wf") none)
          5 "t1").2 = none
      ∧ alookup (on_trace_end (on_trace_start initState 0 "t1" (some "wf") none)
          5 "t1").1.active_traces "t1" = none
      ∧ alookup (on_trace_end (on_trace_start initState 0 "t1" (some "wf") none)
          5 "t1").1.trace_sessions "t1" = none
      ∧ get_traces (on_trace_end (on_trace_start initState 0 "t1" (some "wf")
            none) 5 "t1").1
          (sessionOf (on_trace_start initState 0 "t1" (some "wf") none) "t1")
        = pushCap
            (get_traces (on_trace_start initState 0 "t1" (some "wf") none)
              (sessionOf (on_trace_start initState 0 "t1" (some "wf") none)
                "t1"))
            (finalize { trace_id := "t1", name := "wf", started_at := 0,
                        ended_at := none, duration_ms := none, spans := [],
                        metadata := [] } 5)) := by
  have h0 := C2_end_trace_effects initState 5 "t1"
  have h1 := C2_end_trace_effects
    (on_trace_start initState 0 "t1" (some "wf") none) 5 "t1"
  have h2 := h1.2.2
    { trace_id := "t1", name := "wf", started_at := 0, ended_at := none,
      duration_ms := none, spans := [], metadata := [] } (by decide)
  exact ⟨⟨h0.1, h0.2.1 (by decide)⟩, ⟨h1.1, h2.1, h2.2.1, h2.2.2⟩⟩

/-! ### Claim C6: end_span never raises; orphan spans are dropped -/

/-- C6: `on_span_end` is total (never raises).  A span that was never begun is
a no-op; a span whose parent trace is not in-flight is removed from the
in-flight span index and the state is otherwise untouched, so the span appears
in no trace's `spans` and in no session buffer; and after the call the span id
is absent from the in-flight span index in every case. -/
theorem C6_orphan_span_drop (st : TPState) (now : Nat) (sid : String)
    (exp : Option SpanExport) :
    (alookup st.active_spans sid = none → on_span_end st now sid exp = st)
    ∧ (∀ sd, alookup st.active_spans sid = some sd →
        alookup st.active_traces sd.trace_id = none →
          on_span_end st now sid exp
            = { st with active_spans := aerase st.active_spans sid })
    ∧ alookup (on_span_end st now sid exp).active_spans sid = none := by
  refine ⟨?_, ?_, ?_⟩
  · intro hA
    unfold on_span_end
    rw [hA]
  · intro sd hA hT
    unfold on_span_end
    rw [hA]
    dsimp only
    rw [hT]
  · unfold on_span_end
    cases hA : alookup st.active_spans sid with
    | none => exact hA
    | some sd =>
      dsimp only
      cases hT : alookup st.active_traces sd.trace_id <;>
        exact alookup_aerase_self _ _

theorem C6_orphan_span_drop_witness :
    (on_span_end initState 3 "s1" none = initState)
    ∧ (on_span_end (on_span_start initState 1 "s1" "t1" none none) 3 "s1" none
        = { on_span_start initState 1 "s1" "t1" none none with
              active_spans :=
                aerase (on_span_start initState 1 "s1" "t1" none none).active_spans
                  "s1" })
    ∧ alookup (on_span_end (on_span_start initState 1 "s1" "t1" none none)
        3 "s1" none).active_spans "s1" = none := by
  have h0 := C6_orphan_span_drop initState 3 "s1" none
  have h1 := C6_orphan_span_drop (on_span_start initState 1 "s1" "t1" none none)
    3 "s1" none
  refine ⟨h0.1 (by decide), ?_, h1.2.2⟩
  exact h1.2.1
    { span_id := "s1", trace_id := "t1", parent_id := none, type := "unknown",
      name := "Unknown Operation", started_at := 1, ended_at := none,
      duration_ms := none, data := [] } (by decide) (by decide)

/-! ### Claim C8: idempotent unsubscribe -/

/-- C8: unsubscribing the same queue twice equals unsubscribing it once (and
never raises); other sessions' subscriber lists are untouched, and within the
session exactly the entries carrying the given queue are removed, every other
subscriber's registration surviving. -/
theorem C8_unsubscribe_idempotent (st : TPState) (s : String) (q : Nat) :
    unsubscribe_from_traces (unsubscribe_from_traces st s q) s q
        = unsubscribe_from_traces st s q
    ∧ (∀ s', s' ≠ s →
        alookup (unsubscribe_from_traces st s q).broadcast_queues s'
          = alookup st.broadcast_queues s')
    ∧ ∀ lst, alookup st.broadcast_queues s = some lst →
        alookup (unsubscribe_from_traces st s q).broadcast_queues s
          = some (lst.filter (fun e => e.1 ≠ q)) := by
  refine ⟨?_, ?_, ?_⟩
  · unfold unsubscribe_from_traces
    cases hA : alookup st.broadcast_queues s with
    | none => simp only [hA]
    | some lst =>
      simp only [hA]
      simp only [alookup_aset_self]
      rw [aset_aset_self]
      congr 1
      simp [List.filter_filter]
  · intro s' hs'
    unfold unsubscribe_from_traces
    cases hA : alookup st.broadcast_queues s with
    | none => rfl
    | some lst =>
      dsimp only
      exact alookup_aset_ne _ _ _ _ fun hEq => hs' hEq.symm
  · intro lst hA
    unfold unsubscribe_from_traces
    rw [hA]
    dsimp only
    rw [alookup_aset_self]

theorem C8_unsubscribe_idempotent_witness :
    unsubscribe_from_traces
        (unsubscribe_from_traces
          (subscribe_to_traces (subscribe_to_traces initState "s1" 0 0) "s1" 1 0)
          "s1" 0)
        "s1" 0
      = unsubscribe_from_traces
          (subscribe_to_traces (subscribe_to_traces initState "s1" 0 0) "s1" 1 0)
          "s1" 0
    ∧ alookup (unsubscribe_from_traces
          (subscribe_to_traces (subscribe_to_traces initState "s1" 0 0) "s1" 1 0)
          "s1" 0).broadcast_queues "s2"
        = alookup (subscribe_to_traces (subscribe_to_traces initState "s1" 0 0)
            "s1" 1 0).broadcast_queues "s2"
    ∧ alookup (unsubscribe_from_traces
          (subscribe_to_traces (subscribe_to_traces initState "s1" 0 0) "s1" 1 0)
          "s1" 0).broadcast_queues "s1"
        = some ([(0, 0), (1, 0)].filter (fun e => e.1 ≠ 0)) := by
  have h := C8_unsubscribe_idempotent
    (subscribe_to_traces (subscribe_to_traces initState "s1" 0 0) "s1" 1 0)
    "s1" 0
  exact ⟨h.1, h.2.1 "s2" (by decide), h.2.2 [(0, 0), (1, 0)] (by decide)⟩

/-! ### Claim C9: clear_session empties the buffer, keeps subscriptions -/

/-- C9: for a session holding recorded traces and live subscribers,
`clear_session` makes a subsequent `get_traces` return the empty sequence while
the subscriber registrations of every session are left exactly as they were
(`clear_session` unsubscribes nobody). -/
theorem C9_clear_session_keeps_subscribers (st : TPState) (s : String)
    (_hTraces : get_traces st s ≠ [])
    (_hSubs : ∃ lst, alookup st.broadcast_queues s = some lst ∧ lst ≠ []) :
    get_traces (clear_session st s) s = []
    ∧ (clear_session st s).broadcast_queues = st.broadcast_queues := by
  constructor
  · simp [get_traces, clear_session, alookup_aerase_self]
  · rfl

theorem C9_clear_session_keeps_subscribers_witness :
    get_traces (clear_session (runFrom initState
        [Ev.traceStart 0 "t1" none none, Ev.setSession "t1" "s1",
         Ev.traceEnd 5 "t1", Ev.subscribe "s1" 0 0]) "s1") "s1" = []
    ∧ (clear_session (runFrom initState
        [Ev.traceStart 0 "t1" none none, Ev.setSession "t1" "s1",
         Ev.traceEnd 5 "t1", Ev.subscribe "s1" 0 0]) "s1").broadcast_queues
      = (runFrom initState
        [Ev.traceStart 0 "t1" none none, Ev.setSession "t1" "s1",
         Ev.traceEnd 5 "t1", Ev.subscribe "s1" 0 0]).broadcast_queues :=
  C9_clear_session_keeps_subscribers
    (runFrom initState
      [Ev.traceStart 0 "t1" none none, Ev.setSession "t1" "s1",
       Ev.traceEnd 5 "t1", Ev.subscribe "s1" 0 0])
    "s1" (by decide) ⟨[(0, 0)], by decide, by decide⟩

/-! ### Claim C10: clear_session leaves in-flight traces and associations -/

theorem pushCap_nil (r : TraceRec) : pushCap [] r = [r] := by
  unfold pushCap max_traces_per_session
  dsimp only
  rw [if_neg (by simp)]
  rfl

/-- C10: `clear_session` removes only the session's completed-trace buffer:
the in-flight trace index and the trace-to-session association are untouched,
so an in-flight trace associated with the session still lands in the session's
buffer when its `on_trace_end` arrives, and `get_traces` then contains exactly
that record. -/
theorem C10_clear_session_frame (st : TPState) (s tid : String) (td : TraceRec)
    (now : Nat)
    (hA : alookup st.active_traces tid = some td)
    (hS : alookup st.trace_sessions tid = some s) :
    alookup (clear_session st s).active_traces tid = some td
    ∧ alookup (clear_session st s).trace_sessions tid = some s
    ∧ get_traces (on_trace_end (clear_session st s) now tid).1 s
        = [finalize td now]
    ∧ finalize td now ∈ get_traces (on_trace_end (clear_session st s) now tid).1 s := by
  have hA' : alookup (clear_session st s).active_traces tid = some td := hA
  have hS' : alookup (clear_session st s).trace_sessions tid = some s := hS
  have hsess : sessionOf (clear_session st s) tid = s := by
    simp [sessionOf, hS']
  have hchar := on_trace_end_get_traces (clear_session st s) now tid s
  simp only [hA', hsess, if_pos rfl] at hchar
  have hempty : get_traces (clear_session st s) s = [] := by
    simp [get_traces, clear_session, alookup_aerase_self]
  rw [hempty, pushCap_nil] at hchar
  exact ⟨hA', hS', hchar, by rw [hchar]; exact List.mem_singleton.mpr rfl⟩

theorem C10_clear_session_frame_witness :
    alookup (clear_session (runFrom initState
        [Ev.traceStart 0 "t1" (some "wf") none, Ev.setSession "t1" "s1"])
        "s1").active_traces "t1"
      = some { trace_id := "t1", name := "wf", started_at := 0,
               ended_at := none, duration_ms := none, spans := [],
               metadata := [] }
    ∧ alookup (clear_session (runFrom initState
        [Ev.traceStart 0 "t1" (some "wf") none, Ev.setSession "t1" "s1"])
        "s1").trace_sessions "t1" = some "s1"
    ∧ get_traces (on_trace_end (clear_session (runFrom initState
        [Ev.traceStart 0 "t1" (some "wf") none, Ev.setSession "t1" "s1"])
        "s1") 9 "t1").1 "s1"
      = [finalize { trace_id := "t1", name := "wf", started_at := 0,
                    ended_at := none, duration_ms := none, spans := [],
                    metadata := [] } 9]
    ∧ finalize { trace_id := "t1", name := "wf", started_at := 0,
                 ended_at := none, duration_ms := none, spans := [],
                 metadata := [] } 9
        ∈ get_traces (on_trace_end (clear_session (runFrom initState
            [Ev.traceStart 0 "t1" (some "wf") none, Ev.setSession "t1" "s1"])
            "s1") 9 "t1").1 "s1" :=
  C10_clear_session_frame
    (runFrom initState
      [Ev.traceStart 0 "t1" (some "wf") none, Ev.setSession "t1" "s1"])
    "s1" "t1"
    { trace_id := "t1", name := "wf", started_at := 0, ended_at := none,
      duration_ms := none, spans := [], metadata := [] }
    9 (by decide) (by decide)

/-! ### Claim C3: the span `type` field is NOT a closed four-value set -/

/-- C3 counterexample: a span whose payload carries `type = "response"` (a
shape other than the three recognized kinds) is finalized with `type`
`"response"` — the value is passed through verbatim, not replaced by
`"unknown"` — so the finalized span's `type` lies outside
`{generation, function, agent, unknown}`. -/
theorem C3_counterexample :
    ((get_traces (runFrom initState
        [Ev.traceStart 0 "t" none none,
         Ev.spanStart 1 "sp" "t" none
           (some { span_data := [("type", "response")] }),
         Ev.spanEnd 2 "sp" (some { span_data := [("type", "response")] }),
         Ev.traceEnd 3 "t"]) "unknown").head?).map
        (fun r => r.spans.map (fun sp => sp.type))
      = some ["response"]
    ∧ ("response" = "generation" ∨ "response" = "function"
        ∨ "response" = "agent" ∨ "response" = "unknown") = False := by
  constructor
  · decide
  · simp

/-- C3 amended: the `type` of a span record is the payload's `span_data.type`
value taken verbatim whenever the export and the field are present, and
`"unknown"` exactly when the export is absent/falsy or the field is missing;
no clamping to a closed set of four values takes place. -/
theorem C3_span_type_passthrough (exp : Option SpanExport) :
    (exp = none → get_span_type exp = "unknown")
    ∧ (∀ ex, exp = some ex → alookup ex.span_data "type" = none →
        get_span_type exp = "unknown")
    ∧ (∀ ex v, exp = some ex → alookup ex.span_data "type" = some v →
        get_span_type exp = v) := by
  refine ⟨?_, ?_, ?_⟩
  · intro h
    rw [h]
    rfl
  · intro ex h hf
    rw [h]
    simp [get_span_type, hf]
  · intro ex v h hf
    rw [h]
    simp [get_span_type, hf]

theorem C3_span_type_passthrough_witness :
    (get_span_type none = "unknown")
    ∧ (get_span_type (some { span_data := [("name", "x")] }) = "unknown")
    ∧ (get_span_type (some { span_data := [("type", "response")] })
        = "response") := by
  have h0 := C3_span_type_passthrough none
  have h1 := C3_span_type_passthrough (some { span_data := [("name", "x")] })
  have h2 := C3_span_type_passthrough
    (some { span_data := [("type", "response")] })
  exact ⟨h0.1 rfl, h1.2.1 _ rfl (by decide), h2.2.2 _ "response" rfl (by decide)⟩

/-! ### Claim C4: get_traces is a shallow snapshot (reference semantics)

`get_traces` executes `return list(self._traces.get(session_id, []))`.  In
Python, `list(...)` copies only the list spine: the returned list is a new
object, but its elements are the very dict objects stored in the session
buffer.  The value-semantics model above cannot express this aliasing, so the
claim is settled in a small reference-semantics model of exactly these lines:
records live in a heap addressed by `Nat`, the session buffers hold addresses,
and `get_traces` hands the caller a fresh list of the same addresses. -/

namespace RefModel

/-- Store under reference semantics: `heap` holds the record objects (an
address is an index), `traces` is `_traces` with buffers of addresses. -/
structure Store where
  heap : List TraceRec
  traces : List (String × List Nat)
deriving DecidableEq

/-- Read the record object at an address. -/
def deref (st : Store) (a : Nat) : TraceRec :=
  st.heap.getD a default

/-- `get_traces` (lines 231-234) under reference semantics:
`list(self._traces.get(session_id, []))` builds a NEW list (so later list
operations by the caller cannot reach `_traces`) whose elements are the SAME
record objects — the addresses stored in the buffer. -/
def get_traces_refs (st : Store) (session_id : String) : List Nat :=
  (alookup st.traces session_id).getD []

/-- The record values a reader of the session's traces observes. -/
def get_traces_values (st : Store) (session_id : String) : List TraceRec :=
  (get_traces_refs st session_id).map (deref st)

/-- An in-place mutation, by the caller, of one record object it received
(e.g. `records[0]["name"] = ...` on the result of `get_traces`): the shared
heap cell changes; no dictionary of the store is touched. -/
def mutateRecord (st : Store) (a : Nat) (f : TraceRec → TraceRec) : Store :=
  { st with heap := st.heap.set a (f (st.heap.getD a default)) }

/-- A store holding one completed trace for session `"s1"`. -/
def sampleStore : Store :=
  { heap := [{ trace_id := "t1", name := "wf", started_at := 0,
               ended_at := some 5, duration_ms := some 5, spans := [],
               metadata := [] }],
    traces := [("s1", [0])] }

end RefModel

/-- C4 counterexample: the caller receives the buffer's record objects by
reference — address `0` is an element of the list `get_traces` returned — and
mutating that record in place changes what a later `get_traces` call returns,
so the returned value is not a mutation-proof snapshot. -/
theorem C4_counterexample :
    0 ∈ RefModel.get_traces_refs RefModel.sampleStore "s1"
    ∧ RefModel.get_traces_values
        (RefModel.mutateRecord RefModel.sampleStore 0
          (fun r => { r with name := "mutated" })) "s1"
      ≠ RefModel.get_traces_values RefModel.sampleStore "s1" := by decide

/-- C4 amended: `get_traces` returns a fresh list, so the buffer spine the
store keeps is unaffected by anything the caller does to the returned list;
but the elements are live references to the store's own record objects, so an
in-place mutation of a returned record is visible in the store's buffer and in
every later `get_traces` result. -/
theorem C4_shallow_snapshot (st : RefModel.Store) (a : Nat)
    (f : TraceRec → TraceRec) (s : String)
    (ha : a ∈ RefModel.get_traces_refs st s) (hlen : a < st.heap.length) :
    (RefModel.mutateRecord st a f).traces = st.traces
    ∧ RefModel.get_traces_refs (RefModel.mutateRecord st a f) s
        = RefModel.get_traces_refs st s
    ∧ RefModel.deref (RefModel.mutateRecord st a f) a = f (RefModel.deref st a)
    ∧ f (RefModel.deref st a)
        ∈ RefModel.get_traces_values (RefModel.mutateRecord st a f) s := by
  have hderef : RefModel.deref (RefModel.mutateRecord st a f) a
      = f (RefModel.deref st a) := by
    unfold RefModel.deref RefModel.mutateRecord
    simp [List.getD, List.getElem?_set_self, hlen]
  refine ⟨rfl, rfl, hderef, ?_⟩
  unfold RefModel.get_traces_values
  rw [← hderef]
  exact List.mem_map_of_mem _ ha

theorem C4_shallow_snapshot_witness :
    (RefModel.mutateRecord RefModel.sampleStore 0
        (fun r => { r with name := "mutated" })).traces
      = RefModel.sampleStore.traces
    ∧ RefModel.get_traces_refs
        (RefModel.mutateRecord RefModel.sampleStore 0
          (fun r => { r with name := "mutated" })) "s1"
      = RefModel.get_traces_refs RefModel.sampleStore "s1"
    ∧ RefModel.deref
        (RefModel.mutateRecord RefModel.sampleStore 0
          (fun r => { r with name := "mutated" })) 0
      = { RefModel.deref RefModel.sampleStore 0 with name := "mutated" }
    ∧ { RefModel.deref RefModel.sampleStore 0 with name := "mutated" }
        ∈ RefModel.get_traces_values
            (RefModel.mutateRecord RefModel.sampleStore 0
              (fun r => { r with name := "mutated" })) "s1" :=
  C4_shallow_snapshot RefModel.sampleStore 0
    (fun r => { r with name := "mutated" }) "s1" (by decide) (by decide)
